import Mathlib

/-!
Shallow embedding of the `catalogo_repuestos` application
(`src/app/main.py`, `src/app/models.py`, `src/app/database.py`).

The application is a FastAPI multi-tenant spare-parts catalog backed by a
SQL database (tables `empresas` and `productos`).  The embedding models the
database session as an explicit state value (`DBState`) and each route
handler as a pure state-passing function.  SQLAlchemy behaviour that the
handlers rely on (autoincrement primary keys, the `cascade="all,
delete-orphan"` relationship of `Empresa.productos`, `ILIKE` pattern
matching) is embedded explicitly where a handler depends on it.
-/

namespace Catalogo

/-- ASCII lower-casing of one character, the effect of Python `str.lower`
and of SQL case folding on the ASCII inputs this application handles. -/
def asciiLower (c : Char) : Char :=
  if 65 ≤ c.toNat ∧ c.toNat ≤ 90 then Char.ofNat (c.toNat + 32) else c

/-- Embedding of Python `str.lower()`. -/
def pyLower (s : String) : String := ⟨s.data.map asciiLower⟩

/-- Embedding of Python `str.strip()`: drop leading and trailing whitespace. -/
def pyStrip (s : String) : String :=
  ⟨((s.data.dropWhile Char.isWhitespace).reverse.dropWhile Char.isWhitespace).reverse⟩

/-- Row of the `empresas` table (models.py, class `Empresa`). -/
structure Empresa where
  id : Nat
  nombre : String
  slug : String
  whatsapp : String
  publicado : Bool
deriving Repr, DecidableEq

/-- Row of the `productos` table (models.py, class `Producto`).  `precio` is
a SQL `Float`; it is modelled as a rational number. -/
structure Producto where
  id : Nat
  empresa_id : Nat
  codigo : String
  descripcion : String
  categoria : String
  marca : String
  precio : ℚ
  stock : Int
  activo : Bool
  imagen_url : String
deriving Repr, DecidableEq

/-- Observable state: the two tables, the module-level global
`EMPRESA_ACTIVA_ID` (main.py:27, initially `None`), and the set of
filesystem directories created for tenants (image folders).  Table rows are
kept in insertion order, which is the default result order of an unordered
SQL query on these tables. -/
structure DBState where
  empresas : List Empresa
  productos : List Producto
  empresaActivaId : Option Nat
  dirs : List String
deriving Repr, DecidableEq

/-- Fold step keeping the row with the greater primary key. -/
def pickNewer (acc : Option Empresa) (e : Empresa) : Option Empresa :=
  match acc with
  | none => some e
  | some m => if m.id < e.id then some e else some m

/-- Embedding of `get_empresa_activa` (main.py:67-75): returns the row of
`empresas` with the greatest `id` (`order_by(models.Empresa.id.desc()).first()`),
i.e. the most recently created tenant.  Note that it does not read
`EMPRESA_ACTIVA_ID`. -/
def get_empresa_activa (db : DBState) : Option Empresa :=
  db.empresas.foldl pickNewer none

/-- Next autoincrement primary key for `empresas`. -/
def nextId (db : DBState) : Nat :=
  (db.empresas.foldl (fun m e => max m e.id) 0) + 1

/-- Embedding of the route `POST /empresa/crear` (main.py:552-580,
`crear_empresa`): validates presence of `nombre` and `slug`, rejects a
duplicate `slug`, inserts the row.  It does not touch `EMPRESA_ACTIVA_ID`
and does not create any directory. -/
def crear_empresa (db : DBState) (nombre slug whatsapp : String) : DBState :=
  if nombre = "" ∨ slug = "" then db
  else if db.empresas.any (fun e => e.slug = slug) then db
  else
    { db with
      empresas := db.empresas ++
        [{ id := nextId db, nombre := nombre, slug := slug,
           whatsapp := whatsapp, publicado := false }] }

/-- Embedding of the `POST /empresa/crear_panel` handler at main.py:138-197
(the variant commented `CREAR EMPRESA DESDE PANEL + ACTIVARLA`; main.py
defines three handlers with this name, and this is the only code in the
repository that writes `EMPRESA_ACTIVA_ID`): trims the fields, lower-cases
the slug, validates, inserts the row, creates the per-tenant directory
`app/static/empresas/<id>` and finally sets `EMPRESA_ACTIVA_ID` to the new
id (main.py:194), i.e. explicitly selects the new tenant as active. -/
def crear_empresa_panel (db : DBState) (nombre slug whatsapp : String) : DBState :=
  let nombre := pyStrip nombre
  let slug := pyLower (pyStrip slug)
  let whatsapp := pyStrip whatsapp
  if nombre = "" ∨ slug = "" then db
  else if db.empresas.any (fun e => e.slug = slug) then db
  else
    let newId := nextId db
    { db with
      empresas := db.empresas ++
        [{ id := newId, nombre := nombre, slug := slug,
           whatsapp := whatsapp, publicado := false }],
      dirs := db.dirs ++ ["app/static/empresas/" ++ toString newId],
      empresaActivaId := some newId }

/-- One spreadsheet row: cells keyed by column name (the names as they
stand after the in-place normalization of main.py:306), each holding the
textual content of the cell, so that `Row.get c` embeds
`str(row.get(c, ""))`. -/
structure Row where
  cells : List (String × String)
deriving Repr, DecidableEq

/-- Cell access with the empty string for a missing column. -/
def Row.get (r : Row) (c : String) : String := (r.cells.lookup c).getD ""

/-- A parsed spreadsheet as produced by `pd.read_excel` (main.py:305): the
raw column names and the data rows. -/
structure DataFrame where
  columns : List String
  rows : List Row
deriving Repr, DecidableEq

/-- The required columns of the import (main.py:308), checked in this
order. -/
def requiredCols : List String := ["codigo", "descripcion", "precio"]

/-- Column-name normalization of main.py:306: each name is stripped and
lower-cased. -/
def normalizeCols (cols : List String) : List String :=
  cols.map (fun c => pyLower (pyStrip c))

/-- Outcome of a handler that answers with a redirect carrying either an
`error` or a `msg` query parameter (the message is kept un-urlencoded). -/
inductive UploadResult where
  | errorRedirect (msg : String)
  | msgRedirect (msg : String)
deriving Repr, DecidableEq

/-- Embedding of `POST /upload_excel` (main.py:296-384).

Control flow of the handler, in order:
1. `get_empresa_activa` (main.py:300); with no tenant it redirects with an
   error.  Note the tenant is resolved by `get_empresa_activa` only; the
   global `EMPRESA_ACTIVA_ID` is never read.
2. Column normalization and the required-column check (main.py:305-312):
   the first column of `requiredCols` absent from the normalized column
   list aborts the import, before any row is touched, with an error naming
   that column.
3. The row loop (main.py:317-374).  A row whose stripped `codigo` cell is
   empty is skipped (`continue`).  For any other row the body reaches
   main.py:333, which reads the name `existe` — a name that is bound
   nowhere in the function nor at module level.  Python raises `NameError`
   there, the `except` handler at main.py:381 catches it, and the handler
   redirects with the generic error message.  The crash happens before any
   `db.add` or `db.commit` of the loop, so the session is closed with no
   change committed: the state is returned unmodified.  Only a spreadsheet
   in which every row has a blank `codigo` completes the loop, commits
   nothing, and reports zero new and zero updated rows. -/
def upload_excel (db : DBState) (df : DataFrame) : UploadResult × DBState :=
  match get_empresa_activa db with
  | none => (.errorRedirect "No hay empresa activa. Creá una empresa primero.", db)
  | some _ =>
    match requiredCols.find? (fun c => !(normalizeCols df.columns).contains c) with
    | some c => (.errorRedirect ("Falta columna obligatoria: " ++ c), db)
    | none =>
      if df.rows.all (fun r => pyStrip (r.get "codigo") = "") then
        (.msgRedirect "Excel procesado. Nuevos: 0 | Actualizados: 0", db)
      else
        (.errorRedirect "Error procesando el archivo.", db)

/-- Embedding of the image resolution computed per row inside the Excel
loop of the import (main.py:329-331): the single filename `<codigo>.jpg` is
probed with `os.path.exists`; when present in the image directory the
reference is that filename, otherwise the empty string.  `files` is the
list of filenames existing in the probed directory. -/
def resolveImagen (codigo : String) (files : List String) : String :=
  if files.contains (codigo ++ ".jpg") then codigo ++ ".jpg" else ""

/-- Specification-side image resolution rule, written from the words of
the spec for comparison with `resolveImagen`: try `<code>.jpg`,
`<code>.png`, `<code>.jpeg`, `<code>.webp` in that order, the first
extension whose file exists wins, and with no match the reference is left
empty. -/
def resolveImagenSpec (codigo : String) (files : List String) : String :=
  match [codigo ++ ".jpg", codigo ++ ".png", codigo ++ ".jpeg",
         codigo ++ ".webp"].find? (fun f => files.contains f) with
  | some f => f
  | none => ""

/-- Embedding of `POST /delete_all_products` (main.py:425-438):
`db.query(models.Producto).delete()` carries no tenant filter, so it
removes every row of the `productos` table. -/
def delete_all_products (db : DBState) : UploadResult × DBState :=
  (.msgRedirect "Productos eliminados.", { db with productos := [] })

/-- Outcome of `POST /empresa/borrar/<id>` (main.py:602-612). -/
inductive BorrarResult where
  | notFoundError
  | ok (deleted_id : Nat)
deriving Repr, DecidableEq

/-- Embedding of `borrar_empresa` (main.py:602-612).  `db.delete(empresa)`
together with the `cascade="all, delete-orphan"` relationship
`Empresa.productos` (models.py:17-21) removes the tenant row and every
product row whose `empresa_id` references it.  The handler performs no
filesystem operation, so `dirs` is unchanged. -/
def borrar_empresa (db : DBState) (empresa_id : Nat) : BorrarResult × DBState :=
  match db.empresas.find? (fun e => e.id = empresa_id) with
  | none => (.notFoundError, db)
  | some _ =>
    (.ok empresa_id,
     { db with
       empresas := db.empresas.filter (fun e => e.id ≠ empresa_id),
       productos := db.productos.filter (fun p => p.empresa_id ≠ empresa_id) })

/-- SQL `LIKE` pattern matching with case-insensitive comparison of plain
characters, the semantics of `ILIKE` on the PostgreSQL backend configured
in database.py: `%` matches any sequence of characters, `_` matches
exactly one character, backslash — the default `ESCAPE` character —
strips the wildcard meaning of the following pattern character (so `\%`
matches a literal `%`, still up to ASCII case for letters), and any other
pattern character matches a text character equal to it up to ASCII case.
A pattern ending in an unescaped backslash is rejected by PostgreSQL with
an error (`LIKE pattern must not end with escape character`); that arm is
modelled as a non-match, and it is unreachable from the one pattern this
application builds, `"%" ++ q ++ "%"`, whose final character `%` always
gives a trailing backslash something to escape. -/
def likeMatchCI : List Char → List Char → Bool
  | [], s => s.isEmpty
  | '%' :: ps, s => s.tails.any (fun s2 => likeMatchCI ps s2)
  | '_' :: _, [] => false
  | '_' :: ps, _ :: s2 => likeMatchCI ps s2
  | ['\\'], _ => false
  | '\\' :: _ :: _, [] => false
  | '\\' :: p2 :: ps2, c :: s2 => (asciiLower p2 == asciiLower c) && likeMatchCI ps2 s2
  | _ :: _, [] => false
  | p :: ps, c :: s2 => (asciiLower p == asciiLower c) && likeMatchCI ps s2

/-- Embedding of `column.ilike(pattern)` on the PostgreSQL backend. -/
def sqlIlike (pat s : String) : Bool := likeMatchCI pat.data s.data

/-- Outcome of `GET /catalogo/<slug>` (main.py:444-495): a 404 page when no
tenant carries the slug, otherwise the rendered page with the product list
(also embedded as JSON) and the sorted list of distinct nonempty category
names of the tenant. -/
inductive CatalogoResult where
  | notFound
  | page (productos : List Producto) (categorias : List String)
deriving Repr, DecidableEq

/-- The product list of a catalog response (empty for the 404 page). -/
def CatalogoResult.products : CatalogoResult → List Producto
  | .notFound => []
  | .page ps _ => ps

/-- Embedding of the `catalogo` handler (main.py:444-495).  The query
starts from the product rows of the tenant resolved by slug, then filters
by `descripcion ILIKE %q%` when `q` is nonempty (Python truthiness of the
default `""`), then by exact `categoria` equality when `categoria` is
nonempty.  There is no ordering clause and no further filter: in
particular no `orden` query parameter exists and the `activo` column is
never consulted.  Row order is the stored (insertion) order. -/
def catalogo (db : DBState) (slug q categoria : String) : CatalogoResult :=
  match db.empresas.find? (fun e => e.slug = slug) with
  | none => .notFound
  | some empresa =>
    let base0 := db.productos.filter (fun p => p.empresa_id = empresa.id)
    let base1 :=
      if q ≠ "" then base0.filter (fun p => sqlIlike ("%" ++ q ++ "%") p.descripcion)
      else base0
    let base2 :=
      if categoria ≠ "" then base1.filter (fun p => p.categoria = categoria)
      else base1
    let categorias :=
      (((db.productos.filter (fun p => p.empresa_id = empresa.id)).map
          (fun p => p.categoria)).dedup.filter (fun c => c ≠ "")).insertionSort (· ≤ ·)
    .page base2 categorias

/-- One line item of the quote request body (`data["items"]` of
`generar_pdf`, main.py:501-546).  The JSON numbers `precio` and `cantidad`
are modelled as rationals. -/
structure Item where
  codigo : String
  descripcion : String
  precio : ℚ
  cantidad : ℚ
deriving Repr, DecidableEq

/-- Per-item subtotal (main.py:524): unit price times quantity. -/
def itemSubtotal (i : Item) : ℚ := i.precio * i.cantidad

/-- Running total of `generar_pdf` (main.py:518 and 528): starts at 0 and
adds each subtotal in item order. -/
def pdfTotal (items : List Item) : ℚ :=
  items.foldl (fun t i => t + itemSubtotal i) 0

/-- Two-decimal rendering of a nonnegative amount that is a whole number
of cents, as the format specifier `.2f` prints such a value. -/
def format2 (x : ℚ) : String :=
  let cents : Int := x.num * 100 / (x.den : Int)
  let w := cents / 100
  let f := cents % 100
  toString w ++ "." ++ (if f < 10 then "0" ++ toString f else toString f)

/-- The final total line drawn by `generar_pdf` (main.py:537). -/
def pdfTotalLine (items : List Item) : String :=
  "TOTAL: $" ++ format2 (pdfTotal items)

/-!
Concrete states and inputs used by counterexamples and witnesses.
-/

/-- Lexicographic order on character lists, the SQL ordering of ASCII
strings; used to state the sort orders the specification enumerates. -/
def charListLe : List Char → List Char → Bool
  | [], _ => true
  | _ :: _, [] => false
  | a :: as, b :: bs => if a = b then charListLe as bs else decide (a < b)

/-- Lexicographic order on strings. -/
def strLe (a b : String) : Bool := charListLe a.data b.data

/-- Fresh state: empty database, `EMPRESA_ACTIVA_ID = None`. -/
def db0 : DBState := ⟨[], [], none, []⟩

/-- Tenant A is created through the panel handler, which explicitly
activates it (the selection pointer becomes its id, 1); tenant B is then
created through `POST /empresa/crear`, which leaves the pointer alone.
The most recent explicit selection is tenant A (id 1); the most recently
created tenant is B (id 2). -/
def db_c1 : DBState :=
  crear_empresa (crear_empresa_panel db0 "Empresa A" "a" "") "Empresa B" "b" ""

/-- The row of tenant B as it stands in `db_c1`. -/
def e_c1 : Empresa := ⟨2, "Empresa B", "b", "", false⟩

/-- A state with one tenant and no products. -/
def db_c2 : DBState := ⟨[⟨1, "Acme", "acme", "", false⟩], [], none, []⟩

/-- A valid spreadsheet: all required columns present, one row with the
non-blank code `A1`. -/
def df_c2 : DataFrame :=
  ⟨["codigo", "descripcion", "precio"],
   [⟨[("codigo", "A1"), ("descripcion", "Widget"), ("precio", "10")]⟩]⟩

/-- A state with one tenant, used by the C3 witness. -/
def db_c3 : DBState := ⟨[⟨1, "Acme", "acme", "", false⟩], [], none, []⟩

/-- The tenant row of `db_c3`. -/
def e_c3 : Empresa := ⟨1, "Acme", "acme", "", false⟩

/-- A spreadsheet whose normalized columns are `codigo, precio`: the
required column `descripcion` is missing. -/
def df_c3 : DataFrame := ⟨["Codigo ", "precio"], [⟨[("codigo", "A1")]⟩]⟩

/-- A deactivated product (`activo = false`). -/
def p_c4 : Producto := ⟨1, 1, "X", "Widget", "", "", 5, 0, false, ""⟩

/-- A state whose only product is deactivated. -/
def db_c4 : DBState := ⟨[⟨1, "Acme", "acme", "", false⟩], [p_c4], none, []⟩

/-- The tenant row of `db_c4`. -/
def e_c4 : Empresa := ⟨1, "Acme", "acme", "", false⟩

/-- Three products stored in an order that differs from every ordering the
spec enumerates: by price ascending or descending, by code ascending, and
by brand ascending. -/
def db_c5 : DBState :=
  ⟨[⟨1, "Acme", "acme", "", false⟩],
   [⟨1, 1, "B", "primero", "", "B", 2, 0, true, ""⟩,
    ⟨2, 1, "A", "segundo", "", "A", 1, 0, true, ""⟩,
    ⟨3, 1, "C", "tercero", "", "C", 3, 0, true, ""⟩], none, []⟩

/-- A state with one tenant, one product and the tenant image directory
present on disk. -/
def db_c8 : DBState :=
  ⟨[⟨1, "Acme", "acme", "", false⟩],
   [⟨1, 1, "X", "Widget", "", "", 5, 0, true, ""⟩],
   none, ["app/static/empresas/acme/productos"]⟩

/-- The tenant row of `db_c8`. -/
def e_c8 : Empresa := ⟨1, "Acme", "acme", "", false⟩

/-- A product whose description is the single letter `x`. -/
def p_c9 : Producto := ⟨1, 1, "X", "x", "", "", 5, 0, true, ""⟩

/-- A state whose only product has description `x`. -/
def db_c9 : DBState := ⟨[⟨1, "Acme", "acme", "", false⟩], [p_c9], none, []⟩

/-- A product with description `Blue Widget`, used by the C9 witness. -/
def p_c9w : Producto := ⟨1, 1, "X", "Blue Widget", "", "", 5, 0, true, ""⟩

/-- A state whose only product is `p_c9w`. -/
def db_c9w : DBState := ⟨[⟨1, "Acme", "acme", "", false⟩], [p_c9w], none, []⟩

/-- The tenant row of `db_c9` and `db_c9w`. -/
def e_c9 : Empresa := ⟨1, "Acme", "acme", "", false⟩

/-!
Helper lemmas.
-/

lemma pickNewer_foldl_spec (l : List Empresa) :
    ∀ (acc : Option Empresa) (e : Empresa), l.foldl pickNewer acc = some e →
      (acc = some e ∨ e ∈ l) ∧ (∀ x ∈ l, x.id ≤ e.id) ∧
        (∀ m, acc = some m → m.id ≤ e.id) := by
  induction l with
  | nil =>
    intro acc e h
    rw [List.foldl_nil] at h
    refine ⟨Or.inl h, by simp, fun m hm => ?_⟩
    rw [h] at hm
    cases hm
    exact Nat.le_refl _
  | cons x xs ih =>
    intro acc e h
    rw [List.foldl_cons] at h
    obtain ⟨h1, h2, h3⟩ := ih (pickNewer acc x) e h
    have hstep : ∃ m0, pickNewer acc x = some m0 ∧ x.id ≤ m0.id ∧
        (∀ m, acc = some m → m.id ≤ m0.id) ∧ (m0 = x ∨ acc = some m0) := by
      cases acc with
      | none => exact ⟨x, rfl, Nat.le_refl _, by simp, Or.inl rfl⟩
      | some a =>
        by_cases hlt : a.id < x.id
        · refine ⟨x, by simp [pickNewer, hlt], Nat.le_refl _, fun m hm => ?_, Or.inl rfl⟩
          cases hm
          exact Nat.le_of_lt hlt
        · refine ⟨a, by simp [pickNewer, hlt], Nat.le_of_not_lt hlt, fun m hm => ?_, Or.inr rfl⟩
          cases hm
          exact Nat.le_refl _
    obtain ⟨m0, hm0, hxm, hacc, hm0src⟩ := hstep
    have hm0e : m0.id ≤ e.id := h3 m0 hm0
    refine ⟨?_, ?_, ?_⟩
    · rcases h1 with heq | hin
      · rw [hm0] at heq
        injection heq with heq
        rcases hm0src with hx | ha
        · exact Or.inr (by rw [← heq, hx]; exact List.mem_cons_self _ _)
        · exact Or.inl (by rw [← heq]; exact ha)
      · exact Or.inr (List.mem_cons_of_mem _ hin)
    · intro y hy
      rcases List.mem_cons.mp hy with rfl | hin
      · exact Nat.le_trans hxm hm0e
      · exact h2 y hin
    · intro m hm
      exact Nat.le_trans (hacc m hm) hm0e

lemma get_empresa_activa_spec (db : DBState) (e : Empresa)
    (h : get_empresa_activa db = some e) :
    e ∈ db.empresas ∧ ∀ x ∈ db.empresas, x.id ≤ e.id := by
  obtain ⟨h1, h2, _⟩ := pickNewer_foldl_spec db.empresas none e h
  rcases h1 with h1 | h1
  · cases h1
  · exact ⟨h1, h2⟩

/-!
Theorems for the claims.
-/

/-- C1, counterexample: in `db_c1` the most recent explicit selection is
tenant 1 (the panel creation set `EMPRESA_ACTIVA_ID = 1` and nothing
changed it since), yet the tenant resolution the Excel import performs
(`get_empresa_activa`, called at main.py:300 and again per row at
main.py:322) yields tenant 2, the most recently created one.  The claim
says the import targets the explicitly selected tenant; it does not. -/
theorem c1_counterexample_selection_ignored :
    db_c1.empresaActivaId = some 1 ∧
    (get_empresa_activa db_c1).map Empresa.id = some 2 := by decide

/-- C1 (amended): the Excel import resolves its target tenant through
`get_empresa_activa` alone, which returns the most recently created tenant
— the member of `empresas` with the greatest id — and is insensitive to
the `EMPRESA_ACTIVA_ID` selection pointer. -/
theorem c1_import_targets_latest_created (db : DBState) (e : Empresa)
    (h : get_empresa_activa db = some e) :
    e ∈ db.empresas ∧ (∀ x ∈ db.empresas, x.id ≤ e.id) ∧
      ∀ sel : Option Nat,
        get_empresa_activa { db with empresaActivaId := sel } = some e := by
  obtain ⟨h1, h2⟩ := get_empresa_activa_spec db e h
  exact ⟨h1, h2, fun _ => h⟩

/-- C1, witness for the amended theorem at the state `db_c1`. -/
theorem c1_import_targets_latest_created_witness :
    get_empresa_activa db_c1 = some e_c1 ∧
      (e_c1 ∈ db_c1.empresas ∧ (∀ x ∈ db_c1.empresas, x.id ≤ e_c1.id) ∧
        ∀ sel : Option Nat,
          get_empresa_activa { db_c1 with empresaActivaId := sel } = some e_c1) :=
  ⟨by decide, c1_import_targets_latest_created db_c1 e_c1 (by decide)⟩

/-- C2, evaluation at the failing input: importing a valid spreadsheet
whose single row carries the non-blank code `A1` into the tenant of
`db_c2` aborts with the generic processing error and leaves the state
unchanged — no product row is created, so neither the claimed upsert nor
the idempotent re-import ever happens.  The loop body reads the name
`existe` (main.py:333), which is bound nowhere; Python raises `NameError`
on the first row with a non-blank code and the handler falls into its
`except` branch. -/
theorem c2_import_dies_on_first_row :
    upload_excel db_c2 df_c2 = (.errorRedirect "Error procesando el archivo.", db_c2) ∧
    (upload_excel db_c2 df_c2).2.productos = [] := by decide

/-- C6, counterexample: the image directory contains `A1.png` and no
`A1.jpg`.  The spec rule (try `.jpg, .png, .jpeg, .webp` in order) would
resolve `A1.png`, but the code (main.py:329-331) probes only `A1.jpg` and
leaves the reference empty. -/
theorem c6_counterexample_png_not_tried :
    resolveImagen "A1" ["A1.png"] = "" ∧
    resolveImagenSpec "A1" ["A1.png"] = "A1.png" := by decide

/-- C6 (amended): during import the image reference is resolved by probing
the single filename `code.jpg`: the result is that filename exactly when
it exists in the directory, and the empty reference otherwise; the
extensions `.png`, `.jpeg` and `.webp` are never tried. -/
theorem c6_only_jpg_probed (codigo : String) (files : List String) :
    (resolveImagen codigo files = codigo ++ ".jpg" ∨ resolveImagen codigo files = "") ∧
    (resolveImagen codigo files ≠ "" ↔ (codigo ++ ".jpg") ∈ files) := by
  have hne : codigo ++ ".jpg" ≠ "" := by
    intro heq
    have hd := congrArg String.data heq
    rw [String.data_append] at hd
    simp at hd
  unfold resolveImagen
  by_cases h : (codigo ++ ".jpg") ∈ files
  · simp [h, hne]
  · simp [h]

/-- C7: the PDF quote renderer computes each item subtotal as unit price
times quantity and the final total as the sum of all subtotals; at the
single item (code `A1`, description `Widget`, price 10, quantity 3) the
printed total line reads `TOTAL: $30.00`, and for the empty item list it
reads `TOTAL: $0.00`. -/
theorem c7_pdf_totals :
    (∀ items : List Item, pdfTotal items = (items.map itemSubtotal).sum) ∧
    pdfTotalLine [⟨"A1", "Widget", 10, 3⟩] = "TOTAL: $30.00" ∧
    pdfTotalLine [] = "TOTAL: $0.00" := by
  refine ⟨fun items => ?_, ?_, ?_⟩
  · simp only [pdfTotal, List.sum_eq_foldl, List.foldl_map]
  · have h : pdfTotal [⟨"A1", "Widget", 10, 3⟩] = 30 := by
      norm_num [pdfTotal, itemSubtotal]
    show "TOTAL: $" ++ format2 (pdfTotal [⟨"A1", "Widget", 10, 3⟩]) = _
    rw [h]
    decide
  · have h : pdfTotal [] = 0 := by norm_num [pdfTotal]
    show "TOTAL: $" ++ format2 (pdfTotal []) = _
    rw [h]
    decide

/-- C10: the delete-all-products operation clears the whole `productos`
table — every row of every tenant — while leaving the tenants, the
selection pointer and the filesystem untouched; which tenant is active is
irrelevant. -/
theorem c10_delete_all_clears_table (db : DBState) :
    (delete_all_products db).2.productos = [] ∧
    (delete_all_products db).2.empresas = db.empresas ∧
    (delete_all_products db).2.empresaActivaId = db.empresaActivaId ∧
    (delete_all_products db).2.dirs = db.dirs :=
  ⟨rfl, rfl, rfl, rfl⟩

/-- C3: for a spreadsheet whose normalized columns miss at least one
required column, and with an active tenant present (otherwise the import
aborts even earlier, with the no-tenant error), the import aborts with an
error naming a missing required column and the state — in particular every
product row — is unchanged: no partial commit. -/
theorem c3_missing_column_aborts (db : DBState) (df : DataFrame) (e : Empresa) (c : String)
    (he : get_empresa_activa db = some e)
    (hc : c ∈ requiredCols) (hm : c ∉ normalizeCols df.columns) :
    ∃ c2, c2 ∈ requiredCols ∧ c2 ∉ normalizeCols df.columns ∧
      upload_excel db df = (.errorRedirect ("Falta columna obligatoria: " ++ c2), db) := by
  have hsome : (requiredCols.find? (fun x => !(normalizeCols df.columns).contains x)).isSome := by
    rw [List.find?_isSome]
    refine ⟨c, hc, ?_⟩
    simpa using hm
  obtain ⟨c2, hfind⟩ := Option.isSome_iff_exists.mp hsome
  have h1 := List.find?_some hfind
  have h2 := List.mem_of_find?_eq_some hfind
  simp only [Bool.not_eq_true'] at h1
  rw [← Bool.not_eq_true] at h1
  simp only [List.contains_eq_any_beq, List.any_eq_true, beq_iff_eq, not_exists, not_and] at h1
  have h1 : c2 ∉ normalizeCols df.columns := fun hmem => h1 c2 hmem rfl
  refine ⟨c2, h2, h1, ?_⟩
  simp only [upload_excel, he, hfind]

/-- C3, witness at a spreadsheet missing `descripcion`. -/
theorem c3_missing_column_aborts_witness :
    get_empresa_activa db_c3 = some e_c3 ∧ "descripcion" ∈ requiredCols ∧
      "descripcion" ∉ normalizeCols df_c3.columns ∧
      ∃ c2, c2 ∈ requiredCols ∧ c2 ∉ normalizeCols df_c3.columns ∧
        upload_excel db_c3 df_c3 =
          (.errorRedirect ("Falta columna obligatoria: " ++ c2), db_c3) :=
  ⟨by decide, by decide, by decide,
   c3_missing_column_aborts db_c3 df_c3 e_c3 "descripcion" (by decide) (by decide) (by decide)⟩

lemma catalogo_mem_iff (db : DBState) (slug q categoria : String) (e : Empresa) (p : Producto)
    (he : db.empresas.find? (fun x => x.slug = slug) = some e) :
    p ∈ (catalogo db slug q categoria).products ↔
      p ∈ db.productos ∧ p.empresa_id = e.id ∧
        (q ≠ "" → sqlIlike ("%" ++ q ++ "%") p.descripcion = true) ∧
        (categoria ≠ "" → p.categoria = categoria) := by
  unfold catalogo
  rw [he]
  by_cases hq : q = "" <;> by_cases hcat : categoria = "" <;>
    simp [CatalogoResult.products, hq, hcat, List.mem_filter, and_assoc] <;>
    tauto

/-- C4, counterexample: the only product of `db_c4` is deactivated
(`activo = false`), yet the catalog query for its tenant returns it.  The
claim that no product with a false active flag appears in the result is
violated. -/
theorem c4_counterexample_inactive_listed :
    p_c4.activo = false ∧ p_c4 ∈ (catalogo db_c4 "acme" "" "").products := by decide

/-- C4 (amended): for every tenant slug and every combination of free-text
query and category filter, the catalog returns exactly the products of the
resolved tenant matching the query and category conditions — the `activo`
flag is never consulted, so deactivated products appear like any other. -/
theorem c4_catalog_ignores_activo (db : DBState) (slug q categoria : String)
    (e : Empresa) (p : Producto)
    (he : db.empresas.find? (fun x => x.slug = slug) = some e) :
    p ∈ (catalogo db slug q categoria).products ↔
      p ∈ db.productos ∧ p.empresa_id = e.id ∧
        (q ≠ "" → sqlIlike ("%" ++ q ++ "%") p.descripcion = true) ∧
        (categoria ≠ "" → p.categoria = categoria) :=
  catalogo_mem_iff db slug q categoria e p he

/-- C4, witness at `db_c4` with the deactivated product. -/
theorem c4_catalog_ignores_activo_witness :
    db_c4.empresas.find? (fun x => x.slug = "acme") = some e_c4 ∧
      (p_c4 ∈ (catalogo db_c4 "acme" "" "").products ↔
        p_c4 ∈ db_c4.productos ∧ p_c4.empresa_id = e_c4.id ∧
          (("" : String) ≠ "" → sqlIlike ("%" ++ "" ++ "%") p_c4.descripcion = true) ∧
          (("" : String) ≠ "" → p_c4.categoria = "")) :=
  ⟨by decide, c4_catalog_ignores_activo db_c4 "acme" "" "" e_c4 p_c4 (by decide)⟩

/-- C5, counterexample: in `db_c5` the stored order of the three products
is B, A, C (by code), an order that is not sorted by price ascending, nor
by price descending, nor by code ascending, nor by brand ascending — yet
it is exactly what the catalog returns.  No `orden` parameter exists on
the route (main.py:445) and no ordering is ever applied. -/
theorem c5_counterexample_not_sorted :
    ((catalogo db_c5 "acme" "" "").products.map Producto.codigo = ["B", "A", "C"]) ∧
    ¬ ((catalogo db_c5 "acme" "" "").products.Pairwise (fun a b => a.precio ≤ b.precio)) ∧
    ¬ ((catalogo db_c5 "acme" "" "").products.Pairwise (fun a b => b.precio ≤ a.precio)) ∧
    ¬ ((catalogo db_c5 "acme" "" "").products.Pairwise
        (fun a b => strLe a.codigo b.codigo = true)) ∧
    ¬ ((catalogo db_c5 "acme" "" "").products.Pairwise
        (fun a b => strLe a.marca b.marca = true)) := by
  decide

/-- C5 (amended): the catalog route has no sort-key parameter and applies
no ordering: the returned product list is a subsequence of the stored
`productos` table — the database default order with filters applied, never
a re-sorted list. -/
theorem c5_results_in_db_order (db : DBState) (slug q categoria : String) :
    ((catalogo db slug q categoria).products).Sublist db.productos := by
  unfold catalogo
  cases hfind : db.empresas.find? (fun x => x.slug = slug) with
  | none => exact List.nil_sublist _
  | some e =>
    simp only [CatalogoResult.products]
    split <;> split <;>
      first
        | exact List.filter_sublist _
        | exact (List.filter_sublist _).trans (List.filter_sublist _)
        | exact (List.filter_sublist _).trans
            ((List.filter_sublist _).trans (List.filter_sublist _))

/-- C8, counterexample: deleting the only tenant of `db_c8` succeeds and
removes its product rows, but the tenant image directory is still present
afterwards — the handler never touches the filesystem, while the claim
says the directory is removed. -/
theorem c8_counterexample_directory_kept :
    (borrar_empresa db_c8 1).1 = .ok 1 ∧
    (borrar_empresa db_c8 1).2.productos = [] ∧
    (borrar_empresa db_c8 1).2.dirs = ["app/static/empresas/acme/productos"] := by decide

/-- C8 (amended): deleting an existing tenant removes the tenant row and,
by the declared cascade, every product row referencing it; provided the
slug is unique in the table (the database enforces this), every later
catalog lookup of that slug answers not-found.  The tenant image directory
is not removed: the handler performs no filesystem operation. -/
theorem c8_delete_cascades_and_404 (db : DBState) (eid : Nat) (e : Empresa)
    (he : db.empresas.find? (fun x => x.id = eid) = some e)
    (hu : ∀ x ∈ db.empresas, x.slug = e.slug → x.id = e.id) :
    (borrar_empresa db eid).1 = .ok eid ∧
    (borrar_empresa db eid).2.productos =
      db.productos.filter (fun p => p.empresa_id ≠ eid) ∧
    (borrar_empresa db eid).2.dirs = db.dirs ∧
    ∀ q categoria, catalogo (borrar_empresa db eid).2 e.slug q categoria = .notFound := by
  have heid : e.id = eid := by
    have h := List.find?_some he
    simpa using h
  refine ⟨?_, ?_, ?_, ?_⟩
  · simp only [borrar_empresa, he]
  · simp only [borrar_empresa, he]
  · simp only [borrar_empresa, he]
  · intro q categoria
    have hnone :
        ((borrar_empresa db eid).2).empresas.find? (fun x => x.slug = e.slug) = none := by
      simp only [borrar_empresa, he]
      rw [List.find?_eq_none]
      intro x hx
      have hx2 := List.mem_filter.mp hx
      simp only [ne_eq, decide_not, Bool.not_eq_true', decide_eq_false_iff_not] at hx2
      simp only [decide_eq_true_eq]
      intro hslug
      exact hx2.2 (heid ▸ hu x hx2.1 hslug)
    unfold catalogo
    rw [hnone]

/-- C8, witness for the amended theorem at `db_c8`. -/
theorem c8_delete_cascades_and_404_witness :
    db_c8.empresas.find? (fun x => x.id = 1) = some e_c8 ∧
      ((borrar_empresa db_c8 1).1 = .ok 1 ∧
       (borrar_empresa db_c8 1).2.productos =
         db_c8.productos.filter (fun p => p.empresa_id ≠ 1) ∧
       (borrar_empresa db_c8 1).2.dirs = db_c8.dirs ∧
       ∀ q categoria,
         catalogo (borrar_empresa db_c8 1).2 e_c8.slug q categoria = .notFound) :=
  ⟨by decide, c8_delete_cascades_and_404 db_c8 1 e_c8 (by decide) (by decide)⟩

lemma likeMatchCI_plain_nil (c : Char) (ps : List Char)
    (h1 : c ≠ '%') (h2 : c ≠ '_') (h3 : c ≠ '\\') :
    likeMatchCI (c :: ps) [] = false := by
  simp [likeMatchCI, h1, h2, h3]

lemma likeMatchCI_plain_cons (c a : Char) (ps s2 : List Char)
    (h1 : c ≠ '%') (h2 : c ≠ '_') (h3 : c ≠ '\\') :
    likeMatchCI (c :: ps) (a :: s2) =
      ((asciiLower c == asciiLower a) && likeMatchCI ps s2) := by
  simp [likeMatchCI, h1, h2, h3]

lemma likeMatchCI_percent_iff (ps s : List Char) :
    likeMatchCI ('%' :: ps) s = true ↔ ∃ t, t <:+ s ∧ likeMatchCI ps t = true := by
  simp [likeMatchCI, List.any_eq_true, List.mem_tails]

lemma likeMatchCI_lit (lit : List Char) :
    ∀ s, '%' ∉ lit → '_' ∉ lit → '\\' ∉ lit →
      (likeMatchCI (lit ++ ['%']) s = true ↔
        lit.map asciiLower <+: s.map asciiLower) := by
  induction lit with
  | nil =>
    intro s _ _ _
    constructor
    · intro _
      simp
    · intro _
      rw [List.nil_append, likeMatchCI_percent_iff]
      exact ⟨[], List.nil_suffix, rfl⟩
  | cons c cs ih =>
    intro s h1 h2 h3
    have hc1 : c ≠ '%' := fun h => h1 (h ▸ List.mem_cons_self c cs)
    have hc2 : c ≠ '_' := fun h => h2 (h ▸ List.mem_cons_self c cs)
    have hc3 : c ≠ '\\' := fun h => h3 (h ▸ List.mem_cons_self c cs)
    have h1t : '%' ∉ cs := fun h => h1 (List.mem_cons_of_mem c h)
    have h2t : '_' ∉ cs := fun h => h2 (List.mem_cons_of_mem c h)
    have h3t : '\\' ∉ cs := fun h => h3 (List.mem_cons_of_mem c h)
    cases s with
    | nil =>
      rw [List.cons_append, likeMatchCI_plain_nil c _ hc1 hc2 hc3]
      simp
    | cons a s2 =>
      rw [List.cons_append, likeMatchCI_plain_cons c a _ s2 hc1 hc2 hc3]
      simp only [Bool.and_eq_true, beq_iff_eq, List.map_cons, List.cons_prefix_cons]
      rw [ih s2 h1t h2t h3t]

lemma likeMatchCI_substring (lit s : List Char)
    (h1 : '%' ∉ lit) (h2 : '_' ∉ lit) (h3 : '\\' ∉ lit) :
    likeMatchCI ('%' :: (lit ++ ['%'])) s = true ↔
      lit.map asciiLower <:+: s.map asciiLower := by
  rw [likeMatchCI_percent_iff]
  constructor
  · rintro ⟨t, hts, hm⟩
    rw [likeMatchCI_lit lit t h1 h2 h3] at hm
    exact hm.isInfix.trans (hts.map asciiLower).isInfix
  · intro hinf
    obtain ⟨u, v, huv⟩ := hinf
    refine ⟨s.drop u.length, List.drop_suffix _ _, ?_⟩
    rw [likeMatchCI_lit lit _ h1 h2 h3]
    have hmap : (s.drop u.length).map asciiLower = lit.map asciiLower ++ v := by
      have hstep : (s.map asciiLower).drop u.length = lit.map asciiLower ++ v := by
        rw [← huv, List.append_assoc]
        simp
      rw [← hstep]
      simp
    rw [hmap]
    exact List.prefix_append _ _

lemma sqlIlike_substring_iff (q s : String)
    (h1 : '%' ∉ q.data) (h2 : '_' ∉ q.data) (h3 : '\\' ∉ q.data) :
    sqlIlike ("%" ++ q ++ "%") s = true ↔
      q.data.map asciiLower <:+: s.data.map asciiLower := by
  have hd : ("%" ++ q ++ "%").data = '%' :: (q.data ++ ['%']) := by
    simp [String.data_append]
  rw [sqlIlike, hd]
  exact likeMatchCI_substring q.data s.data h1 h2 h3

/-- C9, counterexample: the free-text query is the single character `_`.
It is not a substring of the description `x` of the only product of
`db_c9`, yet the catalog returns that product, because the query is
interpolated into the `ILIKE` pattern and `_` is a LIKE wildcard matching
any one character.  The claim that exactly the products whose description
contains the query as a case-insensitive substring are returned is
violated. -/
theorem c9_counterexample_wildcard :
    p_c9 ∈ (catalogo db_c9 "acme" "_" "").products ∧
    ¬ ("_".data.map asciiLower <:+: p_c9.descripcion.data.map asciiLower) := by decide

/-- C9 (amended): for every nonempty free-text query containing no LIKE
wildcard or escape character (`%`, `_` or backslash, the PostgreSQL
default escape), the catalog returns exactly those products of the
resolved tenant whose description contains the query as a
case-insensitive substring — and never a product of another tenant.
Queries containing `%`, `_` or a backslash are instead interpreted as
LIKE pattern fragments. -/
theorem c9_search_substring (db : DBState) (slug q : String) (e : Empresa) (p : Producto)
    (he : db.empresas.find? (fun x => x.slug = slug) = some e)
    (hq : q ≠ "") (h1 : '%' ∉ q.data) (h2 : '_' ∉ q.data) (h3 : '\\' ∉ q.data) :
    p ∈ (catalogo db slug q "").products ↔
      p ∈ db.productos ∧ p.empresa_id = e.id ∧
        q.data.map asciiLower <:+: p.descripcion.data.map asciiLower := by
  rw [catalogo_mem_iff db slug q "" e p he]
  simp [hq, sqlIlike_substring_iff q p.descripcion h1 h2 h3]

/-- C9, witness: the query `wid` and the description `Blue Widget`. -/
theorem c9_search_substring_witness :
    db_c9w.empresas.find? (fun x => x.slug = "acme") = some e_c9 ∧
      ("wid" : String) ≠ "" ∧ '%' ∉ "wid".data ∧ '_' ∉ "wid".data ∧
      '\\' ∉ "wid".data ∧
      (p_c9w ∈ (catalogo db_c9w "acme" "wid" "").products ↔
        p_c9w ∈ db_c9w.productos ∧ p_c9w.empresa_id = e_c9.id ∧
          "wid".data.map asciiLower <:+: p_c9w.descripcion.data.map asciiLower) :=
  ⟨by decide, by decide, by decide, by decide, by decide,
   c9_search_substring db_c9w "acme" "wid" e_c9 p_c9w (by decide) (by decide)
     (by decide) (by decide) (by decide)⟩

end Catalogo
